import Mathlib

/-!
Verification of `pkg/node-servant/config/control-plane.go` (OpenYurt).

The file embeds the manifest-patching logic of the node-servant
`config control-plane` operation: the runner factory
(`NewControlPlaneRunner`, `newStaticPodRunner`) and the patch engine
(`staticPodRunner.Do`), which rewrites the `kube-apiserver` and
`kube-controller-manager` static-pod manifests in place.

The YAML accessor (`fileutil.ReadObjectFromYamlFile` /
`WriteObjectToYamlFile`) is modelled at its boundary: loads are inputs
of the engine (`LoadResult`), writes are recorded as events
(`WriteEvent`) together with an injected success flag per file, so that
write-ordering and error-propagation behaviour of `Do` is visible.
-/

set_option autoImplicit false

namespace ControlPlane

/-! ## String helpers (models of Go `strings` functions) -/

/-- `hasSub pat l` holds iff `pat` occurs as a contiguous sublist of `l`:
the scan tries `pat` as a prefix at each suffix of `l`. -/
def hasSub (pat : List Char) : List Char → Bool
  | [] => pat.isPrefixOf []
  | c :: t => pat.isPrefixOf (c :: t) || hasSub pat t

/-- Model of Go `strings.Contains(s, substr)`. -/
def strContains (s substr : String) : Bool :=
  hasSub substr.data s.data

/-- Model of Go `strings.Index(s, "=")`: position of the first `'='`
character, `none` when absent (Go returns `-1`). -/
def indexOfEq : List Char → Option Nat
  | [] => none
  | c :: t => if c = '=' then some 0 else (indexOfEq t).map (· + 1)

/-! ## Data model -/

/-- One entry of `Pod.Spec.Containers`: only the `Command` field is read
or written by the patch engine. -/
structure Container where
  command : List String
deriving DecidableEq, Repr

/-- The fields of `v1.PodSpec` used by the patch engine. -/
structure PodSpec where
  containers : List Container
  dnsPolicy : String
deriving DecidableEq, Repr

/-- The fields of `v1.Pod` used by the patch engine. -/
structure Pod where
  spec : PodSpec
deriving DecidableEq, Repr

/-- The flag substring removed from the kube-apiserver command
(control-plane.go line 89). -/
def kubeletPreferredAddressTypesFlag : String := "kubelet-preferred-address-types="

/-- The flag substring searched in the kube-controller-manager command
(control-plane.go line 116). -/
def controllersFlag : String := "--controllers="

/-- The token inserted after the first `=` (control-plane.go lines 117-120). -/
def nodeLifecycleToken : String := "-nodelifecycle,"

/-- `v1.DNSClusterFirstWithHostNet`. -/
def DNSClusterFirstWithHostNet : String := "ClusterFirstWithHostNet"

/-! ## Patch engine transformations -/

/-- Inner loop of control-plane.go lines 86-95: remove the first command
argument containing `pat` and stop (`break`); the `Bool` is the update
flag contribution of this container. -/
def removeFirstContaining (pat : String) : List String → List String × Bool
  | [] => ([], false)
  | c :: rest =>
    if strContains c pat then
      (rest, true)
    else
      (c :: (removeFirstContaining pat rest).1, (removeFirstContaining pat rest).2)

/-- Control-plane.go lines 119-120: insert `-nodelifecycle,` right after
`insertPoint := strings.Index(cmd, "=") + 1` (index `0` when there is no
`'='`, since Go `Index` returns `-1`). -/
def insertAfterFirstEq (s : String) : String :=
  match indexOfEq s.data with
  | none => String.mk (nodeLifecycleToken.data ++ s.data)
  | some i => String.mk (s.data.take (i + 1) ++ nodeLifecycleToken.data ++ s.data.drop (i + 1))

/-- Inner loop of control-plane.go lines 115-126: at the first argument
containing `--controllers=`, if it does not already contain
`-nodelifecycle,` then insert the token after the first `=` and stop
(`break`); when the token is already present there is no `break`, so the
scan continues with the remaining arguments. -/
def insertNodeLifecycle : List String → List String × Bool
  | [] => ([], false)
  | c :: rest =>
    if strContains c controllersFlag then
      if !(strContains c nodeLifecycleToken) then
        (insertAfterFirstEq c :: rest, true)
      else
        (c :: (insertNodeLifecycle rest).1, (insertNodeLifecycle rest).2)
    else
      (c :: (insertNodeLifecycle rest).1, (insertNodeLifecycle rest).2)

/-- Outer loops of control-plane.go lines 86 and 115: apply a per-command
transformation to every container; the pod update flag is the disjunction
of the per-container flags. -/
def transformContainers (f : List String → List String × Bool) : List Container → List Container × Bool
  | [] => ([], false)
  | c :: rest =>
    (⟨(f c.command).1⟩ :: (transformContainers f rest).1,
     (f c.command).2 || (transformContainers f rest).2)

/-- Control-plane.go lines 84-102: the full kube-apiserver mutation
(flag removal in every container, then DNS-policy normalization),
returning the mutated pod and `kasPodUpdated`. -/
def kasTransformPod (p : Pod) : Pod × Bool :=
  if p.spec.dnsPolicy != DNSClusterFirstWithHostNet then
    (⟨⟨(transformContainers (removeFirstContaining kubeletPreferredAddressTypesFlag) p.spec.containers).1,
       DNSClusterFirstWithHostNet⟩⟩, true)
  else
    (⟨⟨(transformContainers (removeFirstContaining kubeletPreferredAddressTypesFlag) p.spec.containers).1,
       p.spec.dnsPolicy⟩⟩,
     (transformContainers (removeFirstContaining kubeletPreferredAddressTypesFlag) p.spec.containers).2)

/-- Control-plane.go lines 114-127: the full kube-controller-manager
mutation, returning the mutated pod and `kcmPodUpdated`. -/
def kcmTransformPod (p : Pod) : Pod × Bool :=
  (⟨⟨(transformContainers insertNodeLifecycle p.spec.containers).1, p.spec.dnsPolicy⟩⟩,
   (transformContainers insertNodeLifecycle p.spec.containers).2)

/-! ## The `Do` operation -/

/-- Outcome of `fileutil.ReadObjectFromYamlFile` followed by the
`obj.(*v1.Pod)` type assertion: the read itself fails, or the object is
not a `*v1.Pod`, or a pod is obtained. -/
inductive LoadResult where
  | failed
  | notPod
  | pod (p : Pod)
deriving DecidableEq, Repr

/-- Which of the two manifests an error or write refers to. -/
inductive ManifestRole where
  | kas
  | kcm
deriving DecidableEq, Repr

/-- Errors returned by `staticPodRunner.Do`: a read error propagated
as-is, the `fmt.Errorf` type-mismatch message, or a write error
propagated as-is. -/
inductive DoError where
  | loadError (which : ManifestRole)
  | typeError (msg : String)
  | writeError (which : ManifestRole)
deriving DecidableEq, Repr

/-- `fmt.Errorf("manifest file(%s) is not a static pod", path)`. -/
def notStaticPodMsg (path : String) : String :=
  "manifest file(" ++ path ++ ") is not a static pod"

/-- A call of `fileutil.WriteObjectToYamlFile(pod, path)` attempted by
`Do`, recording which file and the pod value passed. -/
inductive WriteEvent where
  | kas (p : Pod)
  | kcm (p : Pod)
deriving DecidableEq, Repr

/-- The manifest a write event targets. -/
def WriteEvent.role : WriteEvent → ManifestRole
  | .kas _ => .kas
  | .kcm _ => .kcm

/-- Environment of one `Do` call: the two manifest paths held by the
`staticPodRunner` struct, the outcome of loading each file, and whether
a write to each file would succeed. -/
structure DoEnv where
  kasStaticPodPath : String
  kcmStaticPodPath : String
  kasLoad : LoadResult
  kcmLoad : LoadResult
  kasWriteOk : Bool
  kcmWriteOk : Bool
deriving DecidableEq, Repr

/-- Control-plane.go lines 71-143, `staticPodRunner.Do`: load the
kube-apiserver manifest (propagating read errors, failing on a non-pod
object), mutate it, load the kube-controller-manager manifest the same
way, mutate it, then write back each manifest whose update flag is set —
sequentially, returning at the first write error. The result lists the
write calls attempted (in order) and the returned error, if any. -/
def Do (env : DoEnv) : List WriteEvent × Option DoError :=
  match env.kasLoad with
  | .failed => ([], some (.loadError .kas))
  | .notPod => ([], some (.typeError (notStaticPodMsg env.kasStaticPodPath)))
  | .pod kasPod =>
    match env.kcmLoad with
    | .failed => ([], some (.loadError .kcm))
    | .notPod => ([], some (.typeError (notStaticPodMsg env.kcmStaticPodPath)))
    | .pod kcmPod =>
      if (kasTransformPod kasPod).2 then
        if env.kasWriteOk then
          if (kcmTransformPod kcmPod).2 then
            if env.kcmWriteOk then
              ([.kas (kasTransformPod kasPod).1, .kcm (kcmTransformPod kcmPod).1], none)
            else
              ([.kas (kasTransformPod kasPod).1, .kcm (kcmTransformPod kcmPod).1],
               some (.writeError .kcm))
          else
            ([.kas (kasTransformPod kasPod).1], none)
        else
          ([.kas (kasTransformPod kasPod).1], some (.writeError .kas))
      else
        if (kcmTransformPod kcmPod).2 then
          if env.kcmWriteOk then
            ([.kcm (kcmTransformPod kcmPod).1], none)
          else
            ([.kcm (kcmTransformPod kcmPod).1], some (.writeError .kcm))
        else
          ([], none)

/-! ## Runner factory -/

/-- The fields of `ControlPlaneOptions` consumed by
`NewControlPlaneRunner`. -/
structure ControlPlaneOptions where
  RunMode : String
  PodManifestsPath : String
deriving DecidableEq, Repr

/-- The `staticPodRunner` struct: the two validated manifest paths. -/
structure StaticPodRunnerPaths where
  kasStaticPodPath : String
  kcmStaticPodPath : String
deriving DecidableEq, Repr

/-- Model of Go `filepath.Join(dir, name)` for a plain file name:
concatenation with a single separator (path cleaning is irrelevant
here since the joined names contain no separators). -/
def filepathJoin (dir name : String) : String := dir ++ "/" ++ name

/-- File name joined for the kube-apiserver manifest (line 55). -/
def kasFileName : String := "kube-apiserver.yaml"

/-- File name joined for the kube-controller-manager manifest (line 56). -/
def kcmFileName : String := "kube-controller-manager.yaml"

/-- Control-plane.go lines 54-69, `newStaticPodRunner`. The probe
models `fileutil.FileExists`, returning `(exist, err)`; the call sites
`exist, _ := fileutil.FileExists(path)` discard the error component and
branch on `!exist` only. -/
def newStaticPodRunner (probe : String → Bool × Option String) (podManifestsPath : String) :
    Except String StaticPodRunnerPaths :=
  if !(probe (filepathJoin podManifestsPath kasFileName)).1 then
    .error (filepathJoin podManifestsPath kasFileName ++ " file is not exist")
  else if !(probe (filepathJoin podManifestsPath kcmFileName)).1 then
    .error (filepathJoin podManifestsPath kcmFileName ++ " file is not exist")
  else
    .ok ⟨filepathJoin podManifestsPath kasFileName, filepathJoin podManifestsPath kcmFileName⟩

/-- Control-plane.go lines 40-47, `NewControlPlaneRunner`: dispatch on
the run mode; only `"pod"` is implemented. -/
def NewControlPlaneRunner (probe : String → Bool × Option String) (o : ControlPlaneOptions) :
    Except String StaticPodRunnerPaths :=
  if o.RunMode = "pod" then
    newStaticPodRunner probe o.PodManifestsPath
  else
    .error (o.RunMode ++ " mode is not supported, only static pod mode is implemented")

/-- Modelled from the spec: the existence probe `fileutil.FileExists`
(package `pkg/util/file`, not part of the sources under verification).
The spec (§6) describes it as a boolean existence probe
`Exists(path) -> bool`; its Go signature returns `(bool, error)`, and a
probe call that fails reports the file as not existing alongside its
error, so an erroring probe never reports `true`. -/
def probeReportsAbsentOnError (probe : String → Bool × Option String) : Prop :=
  ∀ path : String, (probe path).2 ≠ none → (probe path).1 = false

/-! ## Concrete sample inputs (used by witnesses and counterexamples) -/

/-- A kube-apiserver pod whose DNS policy needs normalizing. -/
def kasSamplePod : Pod := ⟨⟨[⟨["kube-apiserver", "--v=2"]⟩], "Default"⟩⟩

/-- A kube-controller-manager pod whose controllers flag needs patching. -/
def kcmSamplePod : Pod :=
  ⟨⟨[⟨["kube-controller-manager", "--controllers=*,bootstrapsigner,tokencleaner"]⟩], "ClusterFirst"⟩⟩

/-- An environment in which both manifests load as pods needing an
update, and writing the kube-apiserver manifest fails. -/
def kasWriteFailEnv : DoEnv :=
  { kasStaticPodPath := "/etc/kubernetes/manifests/kube-apiserver.yaml"
    kcmStaticPodPath := "/etc/kubernetes/manifests/kube-controller-manager.yaml"
    kasLoad := .pod kasSamplePod
    kcmLoad := .pod kcmSamplePod
    kasWriteOk := false
    kcmWriteOk := true }

/-- An environment in which both manifests load as already-patched pods
(no update needed) and writes would succeed. -/
def quiescentEnv : DoEnv :=
  { kasStaticPodPath := "/etc/kubernetes/manifests/kube-apiserver.yaml"
    kcmStaticPodPath := "/etc/kubernetes/manifests/kube-controller-manager.yaml"
    kasLoad := .pod ⟨⟨[⟨["kube-apiserver"]⟩], DNSClusterFirstWithHostNet⟩⟩
    kcmLoad := .pod ⟨⟨[⟨["--controllers=-nodelifecycle,*"]⟩], "ClusterFirst"⟩⟩
    kasWriteOk := true
    kcmWriteOk := true }

/-- A probe that errors on every path (and so reports every file absent). -/
def erroringProbe : String → Bool × Option String :=
  fun _ => (false, some "permission denied")

/-- A probe under which only the kube-apiserver manifest of `/m` exists. -/
def kasOnlyProbe : String → Bool × Option String :=
  fun p => (p == "/m/kube-apiserver.yaml", none)

/-! ## Helper lemmas -/

theorem isPrefixOf_append_self (t b : List Char) : t.isPrefixOf (t ++ b) = true := by
  induction t with
  | nil => simp [List.isPrefixOf]
  | cons c cs ih => simp [List.isPrefixOf, ih]

theorem hasSub_self_append (t b : List Char) : hasSub t (t ++ b) = true := by
  cases t with
  | nil =>
    cases b with
    | nil => rfl
    | cons c cs => simp [hasSub, List.isPrefixOf]
  | cons c cs =>
    show ((c :: cs).isPrefixOf ((c :: cs) ++ b) || hasSub (c :: cs) (cs ++ b)) = true
    rw [isPrefixOf_append_self]
    simp

theorem hasSub_append_self (t a b : List Char) : hasSub t (a ++ (t ++ b)) = true := by
  induction a with
  | nil => exact hasSub_self_append t b
  | cons c cs ih => simp [hasSub, ih]

/-- The inserted string always contains the `-nodelifecycle,` token. -/
theorem strContains_insertAfterFirstEq_token (s : String) :
    strContains (insertAfterFirstEq s) nodeLifecycleToken = true := by
  unfold insertAfterFirstEq strContains
  cases h : indexOfEq s.data with
  | none => simpa using hasSub_self_append nodeLifecycleToken.data s.data
  | some i =>
    have := hasSub_append_self nodeLifecycleToken.data (s.data.take (i + 1)) (s.data.drop (i + 1))
    simpa [List.append_assoc] using this

/-- A container with no argument containing `pat` is left unchanged with
the update flag unset. -/
theorem removeFirstContaining_no_match (pat : String) (cmds : List String)
    (h : ∀ c ∈ cmds, strContains c pat = false) :
    removeFirstContaining pat cmds = (cmds, false) := by
  induction cmds with
  | nil => rfl
  | cons c rest ih =>
    have hc : strContains c pat = false := h c (by simp)
    have hr := ih (fun x hx => h x (by simp [hx]))
    simp [removeFirstContaining, hc, hr]

/-- When at most one argument contains `pat`, no argument of the
transformed command still contains `pat`. -/
theorem removeFirstContaining_clears (pat : String) (cmds : List String)
    (h : cmds.countP (fun c => strContains c pat) ≤ 1) :
    ∀ c ∈ (removeFirstContaining pat cmds).1, strContains c pat = false := by
  induction cmds with
  | nil => simp [removeFirstContaining]
  | cons c rest ih =>
    by_cases hc : strContains c pat = true
    · have hcons : (c :: rest).countP (fun x => strContains x pat) =
          rest.countP (fun x => strContains x pat) + 1 := by
        simp [List.countP_cons, hc]
      have hrest : rest.countP (fun x => strContains x pat) = 0 := by omega
      intro x hx
      simp only [removeFirstContaining, hc, if_true] at hx
      have := List.countP_eq_zero.mp hrest x hx
      simpa using this
    · have hc' : strContains c pat = false := by
        cases hval : strContains c pat with
        | false => rfl
        | true => exact absurd hval hc
      have hcons : (c :: rest).countP (fun x => strContains x pat) =
          rest.countP (fun x => strContains x pat) := by
        simp [List.countP_cons, hc']
      have hcount : rest.countP (fun c => strContains c pat) ≤ 1 := by omega
      intro x hx
      simp only [removeFirstContaining, hc', Bool.false_eq_true, if_false, List.mem_cons] at hx
      rcases hx with rfl | hx
      · exact hc'
      · exact ih hcount x hx

/-- Second application of the removal scan is the identity with the flag
unset, given the at-most-one-match invariant. -/
theorem removeFirstContaining_idem (pat : String) (cmds : List String)
    (h : cmds.countP (fun c => strContains c pat) ≤ 1) :
    removeFirstContaining pat ((removeFirstContaining pat cmds).1) =
      ((removeFirstContaining pat cmds).1, false) :=
  removeFirstContaining_no_match pat _ (removeFirstContaining_clears pat cmds h)

/-- A container with no argument containing `--controllers=` is left
unchanged by the insertion scan with the update flag unset. -/
theorem insertNodeLifecycle_no_match (cmds : List String)
    (h : ∀ c ∈ cmds, strContains c controllersFlag = false) :
    insertNodeLifecycle cmds = (cmds, false) := by
  induction cmds with
  | nil => rfl
  | cons c rest ih =>
    have hc : strContains c controllersFlag = false := h c (by simp)
    have hr := ih (fun x hx => h x (by simp [hx]))
    simp [insertNodeLifecycle, hc, hr]

/-- Second application of the insertion scan is the identity with the
flag unset, given the at-most-one-match invariant. -/
theorem insertNodeLifecycle_idem (cmds : List String)
    (h : cmds.countP (fun c => strContains c controllersFlag) ≤ 1) :
    insertNodeLifecycle ((insertNodeLifecycle cmds).1) =
      ((insertNodeLifecycle cmds).1, false) := by
  induction cmds with
  | nil => rfl
  | cons c rest ih =>
    by_cases hc : strContains c controllersFlag = true
    · have hcons : (c :: rest).countP (fun x => strContains x controllersFlag) =
          rest.countP (fun x => strContains x controllersFlag) + 1 := by
        simp [List.countP_cons, hc]
      have hzero : rest.countP (fun x => strContains x controllersFlag) = 0 := by omega
      have hrest : ∀ x ∈ rest, strContains x controllersFlag = false := by
        intro x hx
        have := List.countP_eq_zero.mp hzero x hx
        simpa using this
      have hnr := insertNodeLifecycle_no_match rest hrest
      by_cases ht : strContains c nodeLifecycleToken = true
      · simp [insertNodeLifecycle, hc, ht, hnr]
      · have ht' : strContains c nodeLifecycleToken = false := by
          cases hval : strContains c nodeLifecycleToken with
          | false => rfl
          | true => exact absurd hval ht
        have hfirst : insertNodeLifecycle (c :: rest) = (insertAfterFirstEq c :: rest, true) := by
          simp [insertNodeLifecycle, hc, ht']
        rw [hfirst]
        by_cases hc' : strContains (insertAfterFirstEq c) controllersFlag = true
        · simp [insertNodeLifecycle, hc', strContains_insertAfterFirstEq_token, hnr]
        · have hc'' : strContains (insertAfterFirstEq c) controllersFlag = false := by
            cases hval : strContains (insertAfterFirstEq c) controllersFlag with
            | false => rfl
            | true => exact absurd hval hc'
          simp [insertNodeLifecycle, hc'', hnr]
    · have hc' : strContains c controllersFlag = false := by
        cases hval : strContains c controllersFlag with
        | false => rfl
        | true => exact absurd hval hc
      have hcons : (c :: rest).countP (fun x => strContains x controllersFlag) =
          rest.countP (fun x => strContains x controllersFlag) := by
        simp [List.countP_cons, hc']
      have hcount : rest.countP (fun c => strContains c controllersFlag) ≤ 1 := by omega
      have ihr := ih hcount
      simp [insertNodeLifecycle, hc', ihr]

/-- If every container's command is a fixpoint of `f` with flag unset,
the container transformation applied to its own output is the identity
with flag unset. -/
theorem transformContainers_idem (f : List String → List String × Bool) (cs : List Container)
    (h : ∀ c ∈ cs, f ((f c.command).1) = ((f c.command).1, false)) :
    transformContainers f ((transformContainers f cs).1) =
      ((transformContainers f cs).1, false) := by
  induction cs with
  | nil => rfl
  | cons c rest ih =>
    have hc := h c (by simp)
    have ihr := ih (fun x hx => h x (by simp [hx]))
    simp [transformContainers, hc, ihr]

/-- A container in the middle of the list whose transformation sets its
flag sets the pod-level flag. -/
theorem transformContainers_middle_flag (f : List String → List String × Bool)
    (cs1 cs2 : List Container) (c : Container) (h : (f c.command).2 = true) :
    (transformContainers f (cs1 ++ c :: cs2)).2 = true := by
  induction cs1 with
  | nil => simp [transformContainers, h]
  | cons d ds ih => simp [transformContainers, ih]

/-- A removal scan that did not set its flag left the command unchanged. -/
theorem removeFirstContaining_flag_false (pat : String) (cmds : List String)
    (h : (removeFirstContaining pat cmds).2 = false) :
    (removeFirstContaining pat cmds).1 = cmds := by
  induction cmds with
  | nil => rfl
  | cons c rest ih =>
    by_cases hc : strContains c pat = true
    · simp [removeFirstContaining, hc] at h
    · have hc' : strContains c pat = false := by
        cases hval : strContains c pat with
        | false => rfl
        | true => exact absurd hval hc
      simp only [removeFirstContaining, hc', Bool.false_eq_true, if_false] at h ⊢
      rw [ih h]

/-- An insertion scan that did not set its flag left the command unchanged. -/
theorem insertNodeLifecycle_flag_false (cmds : List String)
    (h : (insertNodeLifecycle cmds).2 = false) :
    (insertNodeLifecycle cmds).1 = cmds := by
  induction cmds with
  | nil => rfl
  | cons c rest ih =>
    by_cases hc : strContains c controllersFlag = true
    · by_cases ht : strContains c nodeLifecycleToken = true
      · simp only [insertNodeLifecycle, hc, ht, if_true, Bool.not_true, Bool.false_eq_true,
          if_false] at h ⊢
        rw [ih h]
      · have ht' : strContains c nodeLifecycleToken = false := by
          cases hval : strContains c nodeLifecycleToken with
          | false => rfl
          | true => exact absurd hval ht
        simp [insertNodeLifecycle, hc, ht'] at h
    · have hc' : strContains c controllersFlag = false := by
        cases hval : strContains c controllersFlag with
        | false => rfl
        | true => exact absurd hval hc
      simp only [insertNodeLifecycle, hc', Bool.false_eq_true, if_false] at h ⊢
      rw [ih h]

/-- A container transformation that did not set the pod flag left every
container unchanged. -/
theorem transformContainers_flag_false (f : List String → List String × Bool)
    (cs : List Container)
    (hf : ∀ c ∈ cs, (f c.command).2 = false → (f c.command).1 = c.command)
    (h : (transformContainers f cs).2 = false) :
    (transformContainers f cs).1 = cs := by
  induction cs with
  | nil => rfl
  | cons c rest ih =>
    simp only [transformContainers, Bool.or_eq_false_iff] at h
    have hc := hf c (by simp) h.1
    have ihr := ih (fun x hx => hf x (by simp [hx])) h.2
    simp only [transformContainers, hc, ihr]

/-- The DNS policy of the transformed kube-apiserver pod is always
`ClusterFirstWithHostNet`. -/
theorem kasTransformPod_dnsPolicy (p : Pod) :
    ((kasTransformPod p).1).spec.dnsPolicy = DNSClusterFirstWithHostNet := by
  by_cases hd : (p.spec.dnsPolicy != DNSClusterFirstWithHostNet) = true
  · simp [kasTransformPod, hd]
  · have heq : p.spec.dnsPolicy = DNSClusterFirstWithHostNet := by
      simpa [bne_iff_ne] using hd
    have hfalse : (p.spec.dnsPolicy != DNSClusterFirstWithHostNet) = false := by
      simpa using hd
    simp [kasTransformPod, hfalse, heq]

/-- Second application of the kube-apiserver mutation is the identity
with `kasPodUpdated` unset, under the at-most-one-flag invariant. -/
theorem kasTransformPod_idem (p : Pod)
    (h : ∀ c ∈ p.spec.containers,
      c.command.countP (fun s => strContains s kubeletPreferredAddressTypesFlag) ≤ 1) :
    kasTransformPod ((kasTransformPod p).1) = ((kasTransformPod p).1, false) := by
  have hfix : ∀ c ∈ p.spec.containers,
      removeFirstContaining kubeletPreferredAddressTypesFlag
          ((removeFirstContaining kubeletPreferredAddressTypesFlag c.command).1) =
        ((removeFirstContaining kubeletPreferredAddressTypesFlag c.command).1, false) :=
    fun c hc => removeFirstContaining_idem _ _ (h c hc)
  have htc := transformContainers_idem (removeFirstContaining kubeletPreferredAddressTypesFlag)
    p.spec.containers hfix
  by_cases hd : (p.spec.dnsPolicy != DNSClusterFirstWithHostNet) = true
  · have h1 : kasTransformPod p =
        (⟨⟨(transformContainers (removeFirstContaining kubeletPreferredAddressTypesFlag)
             p.spec.containers).1, DNSClusterFirstWithHostNet⟩⟩, true) := by
      simp [kasTransformPod, hd]
    rw [h1]
    simp [kasTransformPod, htc]
  · have hfalse : (p.spec.dnsPolicy != DNSClusterFirstWithHostNet) = false := by
      simpa using hd
    have h1 : kasTransformPod p =
        (⟨⟨(transformContainers (removeFirstContaining kubeletPreferredAddressTypesFlag)
             p.spec.containers).1, p.spec.dnsPolicy⟩⟩,
         (transformContainers (removeFirstContaining kubeletPreferredAddressTypesFlag)
           p.spec.containers).2) := by
      simp [kasTransformPod, hfalse]
    rw [h1]
    simp [kasTransformPod, hfalse, htc]

/-- Second application of the kube-controller-manager mutation is the
identity with `kcmPodUpdated` unset, under the at-most-one-flag
invariant. -/
theorem kcmTransformPod_idem (p : Pod)
    (h : ∀ c ∈ p.spec.containers,
      c.command.countP (fun s => strContains s controllersFlag) ≤ 1) :
    kcmTransformPod ((kcmTransformPod p).1) = ((kcmTransformPod p).1, false) := by
  have hfix : ∀ c ∈ p.spec.containers,
      insertNodeLifecycle ((insertNodeLifecycle c.command).1) =
        ((insertNodeLifecycle c.command).1, false) :=
    fun c hc => insertNodeLifecycle_idem _ (h c hc)
  have htc := transformContainers_idem insertNodeLifecycle p.spec.containers hfix
  simp [kcmTransformPod, htc]

/-! ## Claim theorems -/

/-- Claim C1: when each container of each starting manifest has at most
one argument matching the relevant flag substring, a second application
of the patch engine changes nothing: both transformations are fixpoints
on the output of the first run with their update flags unset
(conjuncts 1-2), a first run that set no flag had already left the pod
equal to its input, so the transformed pods are the on-disk contents
after run one whether or not a write occurred (conjuncts 3-4), and a
second `Do` over those contents attempts no write and succeeds
(conjunct 5), so the final YAML contents after the second run equal
those after the first. -/
theorem c1_apply_idempotent_second_pass (pk pc : String) (wk wc : Bool) (ka kb : Pod)
    (hka : ∀ c ∈ ka.spec.containers,
      c.command.countP (fun s => strContains s kubeletPreferredAddressTypesFlag) ≤ 1)
    (hkb : ∀ c ∈ kb.spec.containers,
      c.command.countP (fun s => strContains s controllersFlag) ≤ 1) :
    kasTransformPod ((kasTransformPod ka).1) = ((kasTransformPod ka).1, false) ∧
    kcmTransformPod ((kcmTransformPod kb).1) = ((kcmTransformPod kb).1, false) ∧
    ((kasTransformPod ka).2 = false → (kasTransformPod ka).1 = ka) ∧
    ((kcmTransformPod kb).2 = false → (kcmTransformPod kb).1 = kb) ∧
    Do ⟨pk, pc, .pod (kasTransformPod ka).1, .pod (kcmTransformPod kb).1, wk, wc⟩ = ([], none) := by
  have e1 := kasTransformPod_idem ka hka
  have e2 := kcmTransformPod_idem kb hkb
  have f1 : (kasTransformPod ((kasTransformPod ka).1)).2 = false := by rw [e1]
  have f2 : (kcmTransformPod ((kcmTransformPod kb).1)).2 = false := by rw [e2]
  refine ⟨e1, e2, ?_, ?_, ?_⟩
  · intro hflag
    by_cases hd : (ka.spec.dnsPolicy != DNSClusterFirstWithHostNet) = true
    · simp [kasTransformPod, hd] at hflag
    · have hfalse : (ka.spec.dnsPolicy != DNSClusterFirstWithHostNet) = false := by
        simpa using hd
      have heq : ka.spec.dnsPolicy = DNSClusterFirstWithHostNet := by
        simpa [bne_iff_ne] using hd
      simp only [kasTransformPod, hfalse, Bool.false_eq_true, if_false] at hflag ⊢
      have hid := transformContainers_flag_false
        (removeFirstContaining kubeletPreferredAddressTypesFlag) ka.spec.containers
        (fun c _ hcf => removeFirstContaining_flag_false _ _ hcf) hflag
      simp [hid]
  · intro hflag
    simp only [kcmTransformPod] at hflag ⊢
    have hid := transformContainers_flag_false insertNodeLifecycle kb.spec.containers
      (fun c _ hcf => insertNodeLifecycle_flag_false _ hcf) hflag
    simp [hid]
  · simp [Do, f1, f2]

/-- Claim C1 witness at the sample manifests. -/
theorem c1_apply_idempotent_second_pass_witness :
    Do ⟨"/m/kube-apiserver.yaml", "/m/kube-controller-manager.yaml",
        .pod (kasTransformPod kasSamplePod).1, .pod (kcmTransformPod kcmSamplePod).1,
        true, true⟩ = ([], none) :=
  (c1_apply_idempotent_second_pass "/m/kube-apiserver.yaml" "/m/kube-controller-manager.yaml"
    true true kasSamplePod kcmSamplePod (by decide) (by decide)).2.2.2.2

/-- Claim C2 counterexample: in an execution where both pods need an
update and writing the kube-apiserver manifest fails, `Do` attempts only
the kube-apiserver write and returns the write error — the
kube-controller-manager write call never happens, contradicting the
claim that the engine still attempts the other write. -/
theorem c2_counterexample_kcm_write_not_attempted :
    (kasTransformPod kasSamplePod).2 = true ∧
    (kcmTransformPod kcmSamplePod).2 = true ∧
    Do kasWriteFailEnv =
      ([WriteEvent.kas ⟨⟨[⟨["kube-apiserver", "--v=2"]⟩], "ClusterFirstWithHostNet"⟩⟩],
       some (DoError.writeError .kas)) := by
  decide

/-- Claim C2 amended: the two writes are sequential, not independent —
when both update flags are set and the kube-apiserver write fails, `Do`
returns that write error at once and the kube-controller-manager write
is not attempted. -/
theorem c2_kas_write_failure_aborts (pk pc : String) (wc : Bool) (ka kb : Pod)
    (h1 : (kasTransformPod ka).2 = true) (h2 : (kcmTransformPod kb).2 = true) :
    Do ⟨pk, pc, .pod ka, .pod kb, false, wc⟩ =
      ([WriteEvent.kas (kasTransformPod ka).1], some (DoError.writeError .kas)) := by
  simp [Do, h1, h2]

/-- Claim C2 amended witness. -/
theorem c2_kas_write_failure_aborts_witness :
    Do kasWriteFailEnv =
      ([WriteEvent.kas (kasTransformPod kasSamplePod).1], some (DoError.writeError .kas)) :=
  c2_kas_write_failure_aborts "/etc/kubernetes/manifests/kube-apiserver.yaml"
    "/etc/kubernetes/manifests/kube-controller-manager.yaml" true
    kasSamplePod kcmSamplePod (by decide) (by decide)

/-- Claim C3 counterexample, two concrete inputs. First: with
`["--controllers=-nodelifecycle,x", "--controllers=y"]`, the first
argument already carries the token, yet scanning does not stop there —
the second argument is patched and the flag is marked, contradicting
"does not mark ChangeFlag, and stops scanning further arguments".
Second: in `"--controllers=a,-nodelifecycle,b"` the token is present but
not immediately after the `=`; a positional check would report it absent
and insert, but the code's substring check reports it present and leaves
the argument unchanged — the presence check is not positional. -/
theorem c3_counterexample_presence_check :
    insertNodeLifecycle ["--controllers=-nodelifecycle,x", "--controllers=y"] =
      (["--controllers=-nodelifecycle,x", "--controllers=-nodelifecycle,y"], true) ∧
    insertNodeLifecycle ["--controllers=a,-nodelifecycle,b"] =
      (["--controllers=a,-nodelifecycle,b"], false) := by
  decide

/-- Claim C3 amended: the presence check for `-nodelifecycle,` is a
substring check anywhere in the argument (not a positional check after
the `=`), and an argument that passes it is skipped without a `break`,
the scan continuing with the remaining arguments; consequently a
container in which every argument containing `--controllers=` already
contains `-nodelifecycle,` is left entirely unchanged with the
ChangeFlag contribution unset. -/
theorem c3_token_present_no_change (cmds : List String)
    (h : ∀ c ∈ cmds, strContains c controllersFlag = true →
      strContains c nodeLifecycleToken = true) :
    insertNodeLifecycle cmds = (cmds, false) := by
  induction cmds with
  | nil => rfl
  | cons c rest ih =>
    have ihr := ih (fun x hx hcf => h x (by simp [hx]) hcf)
    by_cases hc : strContains c controllersFlag = true
    · have ht := h c (by simp) hc
      simp [insertNodeLifecycle, hc, ht, ihr]
    · have hc' : strContains c controllersFlag = false := by
        cases hval : strContains c controllersFlag with
        | false => rfl
        | true => exact absurd hval hc
      simp [insertNodeLifecycle, hc', ihr]

/-- Claim C3 amended witness. -/
theorem c3_token_present_no_change_witness :
    insertNodeLifecycle
      ["--controllers=-nodelifecycle,*,bootstrapsigner,tokencleaner", "--v=2"] =
    (["--controllers=-nodelifecycle,*,bootstrapsigner,tokencleaner", "--v=2"], false) :=
  c3_token_present_no_change
    ["--controllers=-nodelifecycle,*,bootstrapsigner,tokencleaner", "--v=2"] (by decide)

/-- Claim C4 counterexample: the container
`["--controllers=a", "--controllers=*,bootstrapsigner,tokencleaner"]`
contains the claim's argument, but one apply patches the earlier
`--controllers=` argument and breaks, leaving
`--controllers=*,bootstrapsigner,tokencleaner` unrewritten — the claim's
"for every container whose command sequence contains that argument"
fails when another `--controllers=` argument precedes it. -/
theorem c4_counterexample_first_match_wins :
    insertNodeLifecycle ["--controllers=a", "--controllers=*,bootstrapsigner,tokencleaner"] =
      (["--controllers=-nodelifecycle,a", "--controllers=*,bootstrapsigner,tokencleaner"],
       true) := by
  decide

/-- Claim C4 amended: for every controller-manager container whose
command sequence contains the argument
`--controllers=*,bootstrapsigner,tokencleaner` and no other argument
containing `--controllers=`, one apply rewrites exactly that argument to
`--controllers=-nodelifecycle,*,bootstrapsigner,tokencleaner` (inserting
`-nodelifecycle,` right after the first `=`) with the container flag
set, and the pod-level `kcmPodUpdated` ChangeFlag is marked wherever
that container sits in the pod. -/
theorem c4_unique_controllers_arg_patched (l1 l2 : List String)
    (h1 : ∀ c ∈ l1, strContains c controllersFlag = false)
    (h2 : ∀ c ∈ l2, strContains c controllersFlag = false) :
    insertNodeLifecycle (l1 ++ "--controllers=*,bootstrapsigner,tokencleaner" :: l2) =
      (l1 ++ "--controllers=-nodelifecycle,*,bootstrapsigner,tokencleaner" :: l2, true) ∧
    ∀ (cs1 cs2 : List Container) (d : String),
      (kcmTransformPod
        ⟨⟨cs1 ++ ⟨l1 ++ "--controllers=*,bootstrapsigner,tokencleaner" :: l2⟩ :: cs2, d⟩⟩).2 =
      true := by
  have hA : strContains "--controllers=*,bootstrapsigner,tokencleaner" controllersFlag = true := by
    decide
  have hT : strContains "--controllers=*,bootstrapsigner,tokencleaner" nodeLifecycleToken =
      false := by decide
  have hI : insertAfterFirstEq "--controllers=*,bootstrapsigner,tokencleaner" =
      "--controllers=-nodelifecycle,*,bootstrapsigner,tokencleaner" := by decide
  have hmain : ∀ l : List String, (∀ c ∈ l, strContains c controllersFlag = false) →
      insertNodeLifecycle (l ++ "--controllers=*,bootstrapsigner,tokencleaner" :: l2) =
        (l ++ "--controllers=-nodelifecycle,*,bootstrapsigner,tokencleaner" :: l2, true) := by
    intro l
    induction l with
    | nil => intro _; simp [insertNodeLifecycle, hA, hT, hI]
    | cons c cs ih =>
      intro hl
      have hc := hl c (by simp)
      have ihr := ih (fun x hx => hl x (by simp [hx]))
      simp [insertNodeLifecycle, hc, ihr]
  refine ⟨hmain l1 h1, ?_⟩
  intro cs1 cs2 d
  have hflag : (insertNodeLifecycle
      (l1 ++ "--controllers=*,bootstrapsigner,tokencleaner" :: l2)).2 = true := by
    rw [hmain l1 h1]
  simp only [kcmTransformPod]
  exact transformContainers_middle_flag insertNodeLifecycle cs1 cs2
    ⟨l1 ++ "--controllers=*,bootstrapsigner,tokencleaner" :: l2⟩ hflag

/-- Claim C4 amended witness. -/
theorem c4_unique_controllers_arg_patched_witness :
    insertNodeLifecycle
      ["kube-controller-manager", "--controllers=*,bootstrapsigner,tokencleaner", "--v=2"] =
    (["kube-controller-manager",
      "--controllers=-nodelifecycle,*,bootstrapsigner,tokencleaner", "--v=2"], true) :=
  (c4_unique_controllers_arg_patched ["kube-controller-manager"] ["--v=2"]
    (by decide) (by decide)).1

/-- Claim C5: for an API-server container whose command contains exactly
one argument with the substring `kubelet-preferred-address-types=`
(decomposed as `l1 ++ a :: l2` with the match being `a`), one apply
removes exactly that argument with the container flag set (the scan
breaks at it), afterwards no argument of the container contains the
substring, and the pod-level `kasPodUpdated` ChangeFlag is marked
wherever that container sits in the pod. -/
theorem c5_kubelet_preferred_flag_removed (l1 l2 : List String) (a : String)
    (ha : strContains a kubeletPreferredAddressTypesFlag = true)
    (h1 : ∀ c ∈ l1, strContains c kubeletPreferredAddressTypesFlag = false)
    (h2 : ∀ c ∈ l2, strContains c kubeletPreferredAddressTypesFlag = false) :
    removeFirstContaining kubeletPreferredAddressTypesFlag (l1 ++ a :: l2) = (l1 ++ l2, true) ∧
    (l1 ++ l2).all (fun c => !(strContains c kubeletPreferredAddressTypesFlag)) = true ∧
    ∀ (cs1 cs2 : List Container) (d : String),
      (kasTransformPod ⟨⟨cs1 ++ ⟨l1 ++ a :: l2⟩ :: cs2, d⟩⟩).2 = true := by
  have hmain : ∀ l : List String,
      (∀ c ∈ l, strContains c kubeletPreferredAddressTypesFlag = false) →
      removeFirstContaining kubeletPreferredAddressTypesFlag (l ++ a :: l2) =
        (l ++ l2, true) := by
    intro l
    induction l with
    | nil => intro _; simp [removeFirstContaining, ha]
    | cons c cs ih =>
      intro hl
      have hc := hl c (by simp)
      have ihr := ih (fun x hx => hl x (by simp [hx]))
      simp [removeFirstContaining, hc, ihr]
  refine ⟨hmain l1 h1, ?_, ?_⟩
  · rw [List.all_eq_true]
    intro c hc
    rcases List.mem_append.mp hc with hcl | hcl
    · simp [h1 c hcl]
    · simp [h2 c hcl]
  · intro cs1 cs2 d
    have hflag :
        (removeFirstContaining kubeletPreferredAddressTypesFlag (l1 ++ a :: l2)).2 = true := by
      rw [hmain l1 h1]
    have htc := transformContainers_middle_flag
      (removeFirstContaining kubeletPreferredAddressTypesFlag) cs1 cs2 ⟨l1 ++ a :: l2⟩ hflag
    by_cases hd : (d != DNSClusterFirstWithHostNet) = true
    · simp [kasTransformPod, hd]
    · have hfalse : (d != DNSClusterFirstWithHostNet) = false := by simpa using hd
      simpa [kasTransformPod, hfalse] using htc

/-- Claim C5 witness. -/
theorem c5_kubelet_preferred_flag_removed_witness :
    removeFirstContaining kubeletPreferredAddressTypesFlag
      ["kube-apiserver", "--kubelet-preferred-address-types=Hostname,InternalIP", "--v=2"] =
    (["kube-apiserver", "--v=2"], true) :=
  (c5_kubelet_preferred_flag_removed ["kube-apiserver"] ["--v=2"]
    "--kubelet-preferred-address-types=Hostname,InternalIP"
    (by decide) (by decide) (by decide)).1

/-- Claim C6: after one apply the kube-apiserver pod's DNS policy equals
`ClusterFirstWithHostNet`, and `kasPodUpdated` equals the flag-removal
contribution OR-ed with whether the policy was not already that value —
so a differing starting policy marks the flag, while an
already-normalized policy leaves the flag exactly as the removal step
set it (this transformation contributes nothing). -/
theorem c6_dns_policy_normalized (p : Pod) :
    ((kasTransformPod p).1).spec.dnsPolicy = DNSClusterFirstWithHostNet ∧
    (kasTransformPod p).2 =
      ((transformContainers (removeFirstContaining kubeletPreferredAddressTypesFlag)
          p.spec.containers).2
        || (p.spec.dnsPolicy != DNSClusterFirstWithHostNet)) := by
  refine ⟨kasTransformPod_dnsPolicy p, ?_⟩
  by_cases hd : (p.spec.dnsPolicy != DNSClusterFirstWithHostNet) = true
  · simp [kasTransformPod, hd]
  · have hfalse : (p.spec.dnsPolicy != DNSClusterFirstWithHostNet) = false := by
      simpa using hd
    simp [kasTransformPod, hfalse]

/-- Claim C7: with both manifests loading as pods, an unset
`kasPodUpdated` means no kube-apiserver write call is among the attempted
writes (hence that file is untouched by this run), and symmetrically for
`kcmPodUpdated` and the kube-controller-manager file (conjuncts 1-2);
and the flags are monotone — a flag set by the container scan is still
set after the DNS step, and a flag set by one container is set for the
whole pod — so a flag once true is never reset within the run
(conjuncts 3-4). -/
theorem c7_changeflag_gates_writes (pk pc : String) (wk wc : Bool) (ka kb : Pod) :
    ((kasTransformPod ka).2 = false →
      (Do ⟨pk, pc, .pod ka, .pod kb, wk, wc⟩).1.all
        (fun e => e.role != ManifestRole.kas) = true) ∧
    ((kcmTransformPod kb).2 = false →
      (Do ⟨pk, pc, .pod ka, .pod kb, wk, wc⟩).1.all
        (fun e => e.role != ManifestRole.kcm) = true) ∧
    (∀ q : Pod,
      (transformContainers (removeFirstContaining kubeletPreferredAddressTypesFlag)
        q.spec.containers).2 = true → (kasTransformPod q).2 = true) ∧
    (∀ (f : List String → List String × Bool) (c : Container) (cs : List Container),
      (f c.command).2 = true → (transformContainers f (c :: cs)).2 = true) := by
  refine ⟨?_, ?_, ?_, ?_⟩
  · intro hflag
    by_cases hkcm : (kcmTransformPod kb).2 = true
    · by_cases hw : wc = true
      · simp [Do, hflag, hkcm, hw, WriteEvent.role]
      · have hw' : wc = false := by simpa using hw
        simp [Do, hflag, hkcm, hw', WriteEvent.role]
    · have hkcm' : (kcmTransformPod kb).2 = false := by simpa using hkcm
      simp [Do, hflag, hkcm']
  · intro hflag
    by_cases hkas : (kasTransformPod ka).2 = true
    · by_cases hw : wk = true
      · simp [Do, hflag, hkas, hw, WriteEvent.role]
      · have hw' : wk = false := by simpa using hw
        simp [Do, hflag, hkas, hw', WriteEvent.role]
    · have hkas' : (kasTransformPod ka).2 = false := by simpa using hkas
      simp [Do, hflag, hkas']
  · intro q hq
    by_cases hd : (q.spec.dnsPolicy != DNSClusterFirstWithHostNet) = true
    · simp [kasTransformPod, hd]
    · have hfalse : (q.spec.dnsPolicy != DNSClusterFirstWithHostNet) = false := by
        simpa using hd
      simp [kasTransformPod, hfalse, hq]
  · intro f c cs hf
    simp [transformContainers, hf]

/-- Claim C7 witness over the quiescent environment (nothing to update:
neither write occurs). -/
theorem c7_changeflag_gates_writes_witness :
    (Do quiescentEnv).1.all (fun e => e.role != ManifestRole.kas) = true :=
  (c7_changeflag_gates_writes "/etc/kubernetes/manifests/kube-apiserver.yaml"
    "/etc/kubernetes/manifests/kube-controller-manager.yaml" true true
    ⟨⟨[⟨["kube-apiserver"]⟩], DNSClusterFirstWithHostNet⟩⟩
    ⟨⟨[⟨["--controllers=-nodelifecycle,*"]⟩], "ClusterFirst"⟩⟩).1 (by decide)

/-- Claim C8: when the kube-apiserver manifest loads but the object is
not a pod, `Do` fails immediately with the type-mismatch message naming
the kube-apiserver path, attempts no write, and the result is the same
for every controller-manager load outcome and write behaviour — the
controller-manager manifest is never loaded, transformed, or written. -/
theorem c8_kas_type_mismatch_aborts (pk pc : String) (lc : LoadResult) (wk wc : Bool) :
    Do ⟨pk, pc, LoadResult.notPod, lc, wk, wc⟩ =
      ([], some (DoError.typeError (notStaticPodMsg pk))) := by
  rfl

/-- Claim C9: building the runner in any mode other than `"pod"` fails
with the unsupported-mode error naming that mode, and building in
`"pod"` mode over a directory whose kube-controller-manager manifest is
reported absent (the kube-apiserver manifest being present) fails with
the file-not-exist error naming that joined path; in both cases the
factory returns an error and no runner, so no load or transformation
ever runs. -/
theorem c9_factory_precondition_failures (probe : String → Bool × Option String)
    (dir mode : String)
    (hmode : mode ≠ "pod")
    (hkas : (probe (filepathJoin dir kasFileName)).1 = true)
    (hkcm : (probe (filepathJoin dir kcmFileName)).1 = false) :
    NewControlPlaneRunner probe ⟨mode, dir⟩ =
      .error (mode ++ " mode is not supported, only static pod mode is implemented") ∧
    NewControlPlaneRunner probe ⟨"pod", dir⟩ =
      .error (filepathJoin dir kcmFileName ++ " file is not exist") := by
  constructor
  · simp [NewControlPlaneRunner, hmode]
  · simp [NewControlPlaneRunner, newStaticPodRunner, hkas, hkcm]

/-- Claim C9 witness: a probe under which only the kube-apiserver
manifest of `/m` exists. -/
theorem c9_factory_precondition_failures_witness :
    NewControlPlaneRunner kasOnlyProbe ⟨"cloud", "/m"⟩ =
      .error "cloud mode is not supported, only static pod mode is implemented" ∧
    NewControlPlaneRunner kasOnlyProbe ⟨"pod", "/m"⟩ =
      .error (filepathJoin "/m" kcmFileName ++ " file is not exist") :=
  c9_factory_precondition_failures kasOnlyProbe "/m" "cloud"
    (by decide) (by decide) (by decide)

/-- Claim C10 (probe modelled from the spec, see
`probeReportsAbsentOnError`): the factory discards the probe's error —
when the kube-apiserver probe errors (and hence reports the file
absent), the factory fails with its own file-not-exist error naming
that path rather than propagating the probe error, and likewise for the
kube-controller-manager path when the kube-apiserver file is reported
present; moreover the factory's result depends only on the boolean
component of the probe, never on its error component. -/
theorem c10_probe_error_discarded (probe : String → Bool × Option String) (dir : String)
    (hp : probeReportsAbsentOnError probe) :
    ((probe (filepathJoin dir kasFileName)).2 ≠ none →
      newStaticPodRunner probe dir =
        .error (filepathJoin dir kasFileName ++ " file is not exist")) ∧
    ((probe (filepathJoin dir kasFileName)).1 = true →
      (probe (filepathJoin dir kcmFileName)).2 ≠ none →
      newStaticPodRunner probe dir =
        .error (filepathJoin dir kcmFileName ++ " file is not exist")) ∧
    (∀ probe2 : String → Bool × Option String,
      (∀ q : String, (probe2 q).1 = (probe q).1) →
      newStaticPodRunner probe2 dir = newStaticPodRunner probe dir) := by
  refine ⟨?_, ?_, ?_⟩
  · intro he
    have habsent := hp _ he
    simp [newStaticPodRunner, habsent]
  · intro hk he
    have habsent := hp _ he
    simp [newStaticPodRunner, hk, habsent]
  · intro probe2 hsame
    simp only [newStaticPodRunner, hsame]

/-- Claim C10 witness: a probe erroring on every path. -/
theorem c10_probe_error_discarded_witness :
    newStaticPodRunner erroringProbe "/m" =
      .error (filepathJoin "/m" kasFileName ++ " file is not exist") :=
  (c10_probe_error_discarded erroringProbe "/m" (fun _ _ => rfl)).1 (by simp [erroringProbe])

end ControlPlane
